import Mathlib

/-!
Verification of the station-aggregation core of `cpcb_data.py`
(class `DelhiAirQualityFetcher`): pollutant-name normalization
(`normalize_pollutant_name`), per-station aggregation
(`aggregate_by_station`), and the pagination loop of `fetch_all_data`.

Modelling conventions: Python strings are Lean `String` values (a list
of characters); the numeric values carried by the data are `Rat` (the
program only parses, stores and counts them, it performs no arithmetic
on them); `float(...)` raising `ValueError` is modelled by `Option` /
`Except`; Python dictionaries, which preserve insertion order and keep a
key at its original position on overwrite, are insertion-ordered
association lists.
-/

namespace Cpcb

/-- The natural number denoted by a list of decimal digits, most
significant first. -/
def digitsToNat (l : List Char) : Nat :=
  l.foldl (fun a c => 10 * a + (c.toNat - '0'.toNat)) 0

/-- Model of Python `str.strip()`: remove leading and trailing
whitespace. -/
def pyStrip (s : String) : String :=
  ⟨((s.data.dropWhile Char.isWhitespace).reverse.dropWhile Char.isWhitespace).reverse⟩

/-- Model of Python `str.lower()` (ASCII case folding). -/
def pyLower (s : String) : String :=
  ⟨s.data.map Char.toLower⟩

/-- Model of Python `str.replace(a, b)` for one-character patterns, the
only form the source uses. -/
def pyReplace (s : String) (a b : Char) : String :=
  ⟨s.data.map (fun c => if c = a then b else c)⟩

/-- Model of Python `float(s)` restricted to finite decimal literals:
optional surrounding whitespace, an optional sign, then digits with an
optional fractional part, at least one digit in total (`"5."` and
`".5"` are accepted, as in Python). Exponent, `inf` and `nan` forms are
outside the model; no claim depends on them. `none` models `float`
raising `ValueError`. -/
def pyFloat (s : String) : Option Rat :=
  let cs := (pyStrip s).data
  let signed : Bool × List Char :=
    match cs with
    | '-' :: rest => (true, rest)
    | '+' :: rest => (false, rest)
    | _ => (false, cs)
  let intPart := signed.2.takeWhile Char.isDigit
  let rest := signed.2.dropWhile Char.isDigit
  match rest with
  | [] =>
    if intPart.isEmpty then none
    else
      some (mkRat (if signed.1 then -(digitsToNat intPart : Int)
                   else (digitsToNat intPart : Int)) 1)
  | '.' :: frac =>
    if frac.all Char.isDigit && !(intPart.isEmpty && frac.isEmpty) then
      let m : Nat := digitsToNat intPart * 10 ^ frac.length + digitsToNat frac
      some (mkRat (if signed.1 then -(m : Int) else (m : Int)) (10 ^ frac.length))
    else none
  | _ => none

/-- `FlatRecord`: the output of `process_record` (source lines 190-210).
All fields are strings, defaulted to `""` (or the fixed region names)
when the upstream value is missing. The two capture timestamps are
wall-clock values never read by the aggregation logic and are not
modelled. -/
structure FlatRecord where
  station_id : String := ""
  station_name : String := ""
  city : String := "Delhi"
  state : String := "Delhi"
  country : String := "India"
  latitude : String := ""
  longitude : String := ""
  last_update : String := ""
  pollutant_id : String := ""
  pollutant_min : String := ""
  pollutant_max : String := ""
  pollutant_avg : String := ""
  pollutant_unit : String := ""
deriving DecidableEq

/-- The synonym table of `normalize_pollutant_name` (source lines
170-187). -/
def pollutant_map : List (String × String) :=
  [("PM2.5", "pm25"), ("PM10", "pm10"), ("O3", "o3"), ("Ozone", "o3"),
   ("NO2", "no2"), ("SO2", "so2"), ("CO", "co"), ("NH3", "nh3"),
   ("Ammonia", "nh3"), ("Pb", "pb"), ("Lead", "pb"), ("Benzene", "benzene"),
   ("Toluene", "toluene"), ("Xylene", "xylene"), ("MP-Xylene", "mp_xylene"),
   ("Eth-Benzene", "eth_benzene")]

/-- `normalize_pollutant_name` (source lines 168-188): synonym-table
lookup with a lowercase, hyphen-and-space-to-underscore fallback. -/
def normalize_pollutant_name (pollutant_id : String) : String :=
  match pollutant_map.lookup pollutant_id with
  | some v => v
  | none => pyReplace (pyReplace (pyLower pollutant_id) '-' '_') ' ' '_'

/-- The allow-list `target_pollutants` (source line 217). -/
def target_pollutants : List String :=
  ["pm25", "pm10", "o3", "no2", "so2", "co", "nh3"]

/-- One stored pollutant measurement, the dictionary built at source
lines 248-253. The `avg` field mirrors the Python variable `avg_val`,
optional at parse time; the store is guarded by `avg_val is not None`. -/
structure PollutantMeasurement where
  min : Option Rat
  max : Option Rat
  avg : Option Rat
  unit : String
deriving DecidableEq

/-- The grouping key `station_key` (source line 224): the raw,
untrimmed `station_name`, `latitude` and `longitude` strings. -/
def stationKeyOf (r : FlatRecord) : String × String × String :=
  (r.station_name, r.latitude, r.longitude)

/-- One bucket of the `station_data` mapping (source lines 228-236). -/
structure StationInfo where
  station_name : String
  city : String
  state : String
  latitude : Option Rat
  longitude : Option Rat
  last_update : String
  pollutants : List (String × PollutantMeasurement)
deriving DecidableEq

/-- `float(record[f]) if record[f] else None` outside any try block
(source lines 232-233): the empty string is falsy and yields `None`; a
non-empty string that does not parse raises `ValueError`, modelled by
`Except.error`. -/
def parseCoord (s : String) : Except String (Option Rat) :=
  if s = "" then .ok none
  else
    match pyFloat s with
    | some v => .ok (some v)
    | none => .error ("could not convert string to float: " ++ s)

/-- The station shell built for an unseen key (source lines 228-236). -/
def mkShell (r : FlatRecord) : Except String StationInfo :=
  match parseCoord r.latitude with
  | .error e => .error e
  | .ok lat =>
    match parseCoord r.longitude with
    | .error e => .error e
    | .ok lon =>
      .ok { station_name := pyStrip r.station_name
            city := pyStrip r.city
            state := pyStrip r.state
            latitude := lat
            longitude := lon
            last_update := if r.last_update = "" then "" else pyStrip r.last_update
            pollutants := [] }

/-- `float(record[f]) if record[f] else None` inside the try block
(source lines 243-245): the outer `none` models the raised
`ValueError`, caught at line 254. -/
def parseOptFloat (s : String) : Option (Option Rat) :=
  if s = "" then some none
  else (pyFloat s).map some

/-- The try block at source lines 242-246: min, then max, then avg; the
first parse failure discards the whole observation. -/
def tryParseMeasurement (r : FlatRecord) : Option (Option Rat × Option Rat × Option Rat) :=
  match parseOptFloat r.pollutant_min with
  | none => none
  | some mn =>
    match parseOptFloat r.pollutant_max with
    | none => none
    | some mx =>
      match parseOptFloat r.pollutant_avg with
      | none => none
      | some av => some (mn, mx, av)

/-- The stored unit (source line 252): trimmed when non-empty, else the
literal default spelled with the exact code points of the source file. -/
def recordUnit (r : FlatRecord) : String :=
  if r.pollutant_unit = "" then "¬µg/m¬≥"
  else pyStrip r.pollutant_unit

/-- Python-dictionary insertion on an insertion-ordered association
list: overwriting keeps the key at its original position. -/
def dictInsert (l : List (String × PollutantMeasurement)) (k : String)
    (v : PollutantMeasurement) : List (String × PollutantMeasurement) :=
  match l with
  | [] => [(k, v)]
  | (k1, v1) :: rest =>
    if k1 = k then (k, v) :: rest else (k1, v1) :: dictInsert rest k v

/-- The state of the `station_data` mapping, in insertion order. -/
abbrev AggState := List ((String × String × String) × StationInfo)

/-- `station_data[station_key]["pollutants"][pollutant_name] = ...`
(source lines 248-253): replace the pollutant entry of the station at
`k`, leaving every other field and station untouched. -/
def stUpdatePoll (st : AggState) (k : String × String × String) (p : String)
    (m : PollutantMeasurement) : AggState :=
  st.map (fun e =>
    if e.1 = k then (e.1, { e.2 with pollutants := dictInsert e.2.pollutants p m }) else e)

/-- Source lines 238-255: normalize the label, apply the allow-list,
parse the three numeric fields atomically, and store the measurement
when `avg` parsed. Total: every failure path leaves the state as is. -/
def storePhase (st : AggState) (r : FlatRecord) : AggState :=
  if normalize_pollutant_name r.pollutant_id ∈ target_pollutants then
    match tryParseMeasurement r with
    | none => st
    | some (mn, mx, av) =>
      if av.isSome then
        stUpdatePoll st (stationKeyOf r) (normalize_pollutant_name r.pollutant_id)
          ⟨mn, mx, av, recordUnit r⟩
      else st
  else st

/-- One iteration of the `for record in raw_data` loop of
`aggregate_by_station` (source lines 219-255). `Except.error` models
the uncaught `ValueError` a `float()` call can raise during shell
creation. -/
def aggStep (st : AggState) (r : FlatRecord) : Except String AggState :=
  if r.pollutant_id = "" ∨ r.pollutant_avg = "" then .ok st
  else
    match (if st.any (fun e => e.1 = stationKeyOf r) then Except.ok st
           else (mkShell r).map (fun shell => st ++ [(stationKeyOf r, shell)])) with
    | .error e => .error e
    | .ok st1 => .ok (storePhase st1 r)

/-- The whole record-processing loop of `aggregate_by_station`. -/
def runAgg (st : AggState) : List FlatRecord → Except String AggState
  | [] => .ok st
  | r :: rs =>
    match aggStep st r with
    | .error e => .error e
    | .ok st1 => runAgg st1 rs

/-- One flattened output row (source lines 264-291), with the optional
weather-enrichment branch disabled (no OpenWeather key), as in an
unauthenticated run; the claims do not concern enrichment. `pollutants`
keeps the grouped station mapping; `exportColumns` below produces the
literal per-pollutant columns. -/
structure ExportRecord where
  station_name : String
  city : String
  state : String
  latitude : Option Rat
  longitude : Option Rat
  last_update : String
  total_pollutants_monitored : Nat
  pollutants : List (String × PollutantMeasurement)
deriving DecidableEq

/-- Source lines 264-291 for one surviving station. -/
def toExport (si : StationInfo) : ExportRecord :=
  { station_name := si.station_name
    city := si.city
    state := si.state
    latitude := si.latitude
    longitude := si.longitude
    last_update := si.last_update
    total_pollutants_monitored := si.pollutants.length
    pollutants := si.pollutants }

/-- `aggregate_by_station` (source lines 212-293): run the loop, drop
stations with an empty pollutant mapping, flatten the rest. -/
def aggregate_by_station (raw_data : List FlatRecord) : Except String (List ExportRecord) :=
  match runAgg [] raw_data with
  | .error e => .error e
  | .ok st =>
    .ok (((st.map Prod.snd).filter (fun si => !si.pollutants.isEmpty)).map toExport)

/-- A scalar cell of an export row. -/
inductive CellValue where
  | num (q : Rat)
  | str (s : String)
  | null
deriving DecidableEq

/-- `None` becomes a null cell, a number a numeric cell. -/
def optCell (v : Option Rat) : CellValue :=
  match v with
  | some q => .num q
  | none => .null

/-- The four columns one pollutant contributes (source lines 285-289). -/
def measurementCols (p : String) (m : PollutantMeasurement) : List (String × CellValue) :=
  [(p ++ "_min", optCell m.min), (p ++ "_max", optCell m.max),
   (p ++ "_avg", optCell m.avg), (p ++ "_unit", .str m.unit)]

/-- All pollutant columns of an export row. -/
def exportColumns (er : ExportRecord) : List (String × CellValue) :=
  er.pollutants.flatMap (fun pm => measurementCols pm.1 pm.2)

/-- The mutable state of the pagination loop of `fetch_all_data`.
`raw_data` and `totalFetched` are the `self.raw_data` list and the
`total_fetched` counter of the source; `offset` the request offset;
`wireRecords` counts every record returned by `fetch_data_batch`, that
is `len(records)` summed over the received pages. -/
structure FetchState (α : Type) where
  raw_data : List α
  totalFetched : Nat
  offset : Nat
  wireRecords : Nat
deriving DecidableEq

/-- The inner `for record in records` loop (source lines 325-331):
append the processed record, bump the counter, and stop as soon as the
counter reaches `max_records`. -/
def ingestPage {α : Type} (maxRecords : Nat) : List α → List α → Nat → List α × Nat
  | [], raw, total => (raw, total)
  | r :: rs, raw, total =>
    if maxRecords ≤ total + 1 then (raw ++ [r], total + 1)
    else ingestPage maxRecords rs (raw ++ [r]) (total + 1)

/-- The `while total_fetched < max_records` loop of `fetch_all_data`
(source lines 303-338). The upstream call (`fetch_data_batch` plus the
missing-`records`-field check) is abstracted as `upstream : offset to
optional page`, where `none` models a failed batch or a body without a
`records` field, both of which break the loop; an empty page also
breaks; a page shorter than the request limit breaks after being
ingested. The per-record `process_record` call is a total map that
neither fails nor changes counts, so page elements are kept abstract.
The source fixes `limit = 100`; the loop is modelled with the
limit as a parameter so that the bounding scenario of the specification,
which sets the upstream page size equal to the request limit, is
expressible. `fuel` bounds the recursion; every continuing iteration
strictly increases `totalFetched`, so `maxRecords + 1` always
suffices. -/
def fetchGo {α : Type} (upstream : Nat → Option (List α)) (limit maxRecords : Nat) :
    Nat → FetchState α → FetchState α
  | 0, st => st
  | fuel + 1, st =>
    if st.totalFetched < maxRecords then
      match upstream st.offset with
      | none => st
      | some records =>
        if records.isEmpty then st
        else
          let rt := ingestPage maxRecords records st.raw_data st.totalFetched
          let st1 : FetchState α :=
            ⟨rt.1, rt.2, st.offset + limit, st.wireRecords + records.length⟩
          if records.length < limit then st1
          else fetchGo upstream limit maxRecords fuel st1
    else st

/-- `fetch_all_data` restricted to its pagination loop (source lines
295-338), starting from the empty state. -/
def fetch_all_data {α : Type} (upstream : Nat → Option (List α)) (limit maxRecords : Nat) :
    FetchState α :=
  fetchGo upstream limit maxRecords (maxRecords + 1) ⟨[], 0, 0, 0⟩

/-! ## Concrete records used by witnesses and counterexamples -/

/-- A fully well-formed PM2.5 record for one station. -/
def recPM : FlatRecord :=
  { station_name := "Alpha", city := "Delhi", state := "Delhi",
    latitude := "28.5", longitude := "77.25", last_update := "01-01-2025 01:00:00",
    pollutant_id := "PM2.5", pollutant_min := "40", pollutant_max := "70",
    pollutant_avg := "55", pollutant_unit := "ug/m3" }

/-- The export row `aggregate_by_station [recPM]` produces. -/
def expPM : ExportRecord :=
  { station_name := "Alpha", city := "Delhi", state := "Delhi",
    latitude := some (mkRat 285 10), longitude := some (mkRat 7725 100),
    last_update := "01-01-2025 01:00:00", total_pollutants_monitored := 1,
    pollutants := [("pm25", ⟨some (mkRat 40 1), some (mkRat 70 1), some (mkRat 55 1), "ug/m3"⟩)] }

/-- A record whose pollutant label is outside the allow-list. -/
def benzeneRecord : FlatRecord :=
  { station_name := "B", latitude := "28.0", longitude := "77.0",
    pollutant_id := "Benzene", pollutant_avg := "5" }

/-- A record with a non-empty, non-numeric latitude string. -/
def badLatRecord : FlatRecord :=
  { station_name := "X", latitude := "abc", longitude := "77.1",
    pollutant_id := "PM2.5", pollutant_avg := "5" }

/-- `recPM` with an unparseable, non-empty `pollutant_max`. -/
def recBadMax : FlatRecord := { recPM with pollutant_max := "NA" }

/-- A second observation for the same station and pollutant as `recPM`
with different, parseable values. -/
def recPM2 : FlatRecord :=
  { recPM with
    pollutant_min := ""
    pollutant_max := "80"
    pollutant_avg := "60"
    pollutant_unit := "" }

/-- `recPM` with a station name carrying a leading space. -/
def recPMspace : FlatRecord := { recPM with station_name := " Alpha" }

/-- The shell `mkShell` builds for `recPM` (also for `recBadMax` and,
since stripping removes the leading space, for `recPMspace`). -/
def shellAlpha : StationInfo :=
  { station_name := "Alpha", city := "Delhi", state := "Delhi",
    latitude := some (mkRat 285 10), longitude := some (mkRat 7725 100),
    last_update := "01-01-2025 01:00:00", pollutants := [] }

/-- The invariant maintained on every pollutant mapping: distinct keys,
every key in the allow-list, every stored `avg` non-null. -/
def pollsOK (l : List (String × PollutantMeasurement)) : Prop :=
  (l.map Prod.fst).Nodup ∧ ∀ pm ∈ l, pm.1 ∈ target_pollutants ∧ pm.2.avg.isSome = true

/-- The invariant over the whole `station_data` state. -/
def stateOK (st : AggState) : Prop := ∀ e ∈ st, pollsOK e.2.pollutants

/-- The base (non-pollutant) fields of a station bucket: name, city,
state, latitude, longitude, last update. -/
def baseFields (si : StationInfo) :
    String × String × String × Option Rat × Option Rat × String :=
  (si.station_name, si.city, si.state, si.latitude, si.longitude, si.last_update)

/-! ## Characterization lemmas for the aggregation step -/

theorem parseCoord_ok_of (s : String) (h : s = "" ∨ (pyFloat s).isSome = true) :
    parseCoord s = .ok (if s = "" then none else pyFloat s) := by
  unfold parseCoord
  by_cases he : s = ""
  · simp [he]
  · simp only [he, if_false, if_neg he]
    cases hf : pyFloat s with
    | none =>
      rcases h with h | h
      · exact absurd h he
      · rw [hf] at h; simp at h
    | some v => rfl

theorem parseCoord_error_of {s : String} (h : s ≠ "" ∧ pyFloat s = none) :
    parseCoord s = .error ("could not convert string to float: " ++ s) := by
  unfold parseCoord
  rw [if_neg h.1, h.2]

theorem mkShell_ok_of {r : FlatRecord}
    (hlat : r.latitude = "" ∨ (pyFloat r.latitude).isSome = true)
    (hlon : r.longitude = "" ∨ (pyFloat r.longitude).isSome = true) :
    mkShell r = .ok
      { station_name := pyStrip r.station_name, city := pyStrip r.city,
        state := pyStrip r.state,
        latitude := if r.latitude = "" then none else pyFloat r.latitude,
        longitude := if r.longitude = "" then none else pyFloat r.longitude,
        last_update := if r.last_update = "" then "" else pyStrip r.last_update,
        pollutants := [] } := by
  unfold mkShell
  rw [parseCoord_ok_of _ hlat, parseCoord_ok_of _ hlon]

theorem mkShell_error_of {r : FlatRecord}
    (h : (r.latitude ≠ "" ∧ pyFloat r.latitude = none) ∨
         ((r.latitude = "" ∨ (pyFloat r.latitude).isSome = true) ∧
          r.longitude ≠ "" ∧ pyFloat r.longitude = none)) :
    ∃ e, mkShell r = .error e := by
  rcases h with h | ⟨h1, h2⟩
  · exact ⟨_, by unfold mkShell; rw [parseCoord_error_of h]⟩
  · exact ⟨_, by unfold mkShell; rw [parseCoord_ok_of _ h1, parseCoord_error_of h2]⟩

theorem mkShell_spec {r : FlatRecord} {sh : StationInfo} (h : mkShell r = .ok sh) :
    parseCoord r.latitude = .ok sh.latitude ∧ parseCoord r.longitude = .ok sh.longitude ∧
    sh.station_name = pyStrip r.station_name ∧ sh.city = pyStrip r.city ∧
    sh.state = pyStrip r.state ∧
    sh.last_update = (if r.last_update = "" then "" else pyStrip r.last_update) ∧
    sh.pollutants = [] := by
  unfold mkShell at h
  cases hlat : parseCoord r.latitude with
  | error e => rw [hlat] at h; cases h
  | ok lat =>
    rw [hlat] at h
    cases hlon : parseCoord r.longitude with
    | error e => rw [hlon] at h; cases h
    | ok lon =>
      rw [hlon] at h
      injection h with h2
      subst h2
      exact ⟨rfl, rfl, rfl, rfl, rfl, rfl, rfl⟩

theorem aggStep_skip {st : AggState} {r : FlatRecord}
    (h : r.pollutant_id = "" ∨ r.pollutant_avg = "") : aggStep st r = .ok st := by
  unfold aggStep
  rw [if_pos h]

theorem aggStep_seen {st : AggState} {r : FlatRecord}
    (hs : ¬(r.pollutant_id = "" ∨ r.pollutant_avg = ""))
    (ha : st.any (fun e => e.1 = stationKeyOf r) = true) :
    aggStep st r = .ok (storePhase st r) := by
  unfold aggStep
  rw [if_neg hs, if_pos ha]

theorem aggStep_new {st : AggState} {r : FlatRecord} {sh : StationInfo}
    (hs : ¬(r.pollutant_id = "" ∨ r.pollutant_avg = ""))
    (ha : st.any (fun e => e.1 = stationKeyOf r) = false)
    (hsh : mkShell r = .ok sh) :
    aggStep st r = .ok (storePhase (st ++ [(stationKeyOf r, sh)]) r) := by
  unfold aggStep
  rw [if_neg hs, if_neg (by simp [ha]), hsh]
  rfl

theorem aggStep_raise {st : AggState} {r : FlatRecord} {e : String}
    (hs : ¬(r.pollutant_id = "" ∨ r.pollutant_avg = ""))
    (ha : st.any (fun e => e.1 = stationKeyOf r) = false)
    (hsh : mkShell r = .error e) :
    aggStep st r = .error e := by
  unfold aggStep
  rw [if_neg hs, if_neg (by simp [ha]), hsh]
  rfl

theorem storePhase_store {st : AggState} {r : FlatRecord} {mn mx : Option Rat} {a : Rat}
    (ht : normalize_pollutant_name r.pollutant_id ∈ target_pollutants)
    (hp : tryParseMeasurement r = some (mn, mx, some a)) :
    storePhase st r = stUpdatePoll st (stationKeyOf r)
      (normalize_pollutant_name r.pollutant_id) ⟨mn, mx, some a, recordUnit r⟩ := by
  unfold storePhase
  rw [if_pos ht, hp]
  rfl

theorem storePhase_drop {st : AggState} {r : FlatRecord}
    (h : normalize_pollutant_name r.pollutant_id ∉ target_pollutants ∨
         tryParseMeasurement r = none) :
    storePhase st r = st := by
  unfold storePhase
  rcases h with h | h
  · rw [if_neg h]
  · by_cases ht : normalize_pollutant_name r.pollutant_id ∈ target_pollutants
    · rw [if_pos ht, h]
    · rw [if_neg ht]

theorem parseOptFloat_none_iff (s : String) :
    parseOptFloat s = none ↔ s ≠ "" ∧ pyFloat s = none := by
  unfold parseOptFloat
  by_cases h : s = ""
  · simp [h]
  · simp [h, Option.map_eq_none']

theorem tryParse_none_of_fail {r : FlatRecord}
    (h : (r.pollutant_min ≠ "" ∧ pyFloat r.pollutant_min = none) ∨
         (r.pollutant_max ≠ "" ∧ pyFloat r.pollutant_max = none) ∨
         (r.pollutant_avg ≠ "" ∧ pyFloat r.pollutant_avg = none)) :
    tryParseMeasurement r = none := by
  unfold tryParseMeasurement
  rcases h with h | h | h
  · rw [(parseOptFloat_none_iff _).mpr h]
  · cases hm : parseOptFloat r.pollutant_min with
    | none => rfl
    | some mn => rw [(parseOptFloat_none_iff _).mpr h]
  · cases hm : parseOptFloat r.pollutant_min with
    | none => rfl
    | some mn =>
      cases hx : parseOptFloat r.pollutant_max with
      | none => rfl
      | some mx => rw [(parseOptFloat_none_iff _).mpr h]

/-! ## Dictionary lemmas and the state invariant -/

theorem dictInsert_keys (l : List (String × PollutantMeasurement)) (k : String)
    (v : PollutantMeasurement) :
    (dictInsert l k v).map Prod.fst =
      if k ∈ l.map Prod.fst then l.map Prod.fst else l.map Prod.fst ++ [k] := by
  induction l with
  | nil => simp [dictInsert]
  | cons e rest ih =>
    obtain ⟨k1, v1⟩ := e
    by_cases hk : k1 = k
    · subst hk
      simp [dictInsert]
    · simp only [dictInsert, if_neg hk, List.map_cons, ih]
      by_cases hm : k ∈ rest.map Prod.fst
      · simp [hm, Ne.symm hk]
      · simp [hm, Ne.symm hk]

theorem dictInsert_keys_nodup {l : List (String × PollutantMeasurement)} {k : String}
    {v : PollutantMeasurement} (h : (l.map Prod.fst).Nodup) :
    ((dictInsert l k v).map Prod.fst).Nodup := by
  rw [dictInsert_keys]
  by_cases hm : k ∈ l.map Prod.fst
  · simpa [hm] using h
  · simp [hm, List.nodup_append, h]

theorem dictInsert_mem {l : List (String × PollutantMeasurement)} {k : String}
    {v : PollutantMeasurement} {pm : String × PollutantMeasurement}
    (h : pm ∈ dictInsert l k v) : pm = (k, v) ∨ pm ∈ l := by
  induction l with
  | nil => simpa [dictInsert] using h
  | cons e rest ih =>
    obtain ⟨k1, v1⟩ := e
    by_cases hk : k1 = k
    · subst hk
      simp only [dictInsert, if_true, eq_self_iff_true, List.mem_cons] at h
      rcases h with h | h
      · exact Or.inl h
      · exact Or.inr (List.mem_cons_of_mem _ h)
    · simp only [dictInsert, if_neg hk, List.mem_cons] at h
      rcases h with h | h
      · exact Or.inr (by simp [h])
      · rcases ih h with h2 | h2
        · exact Or.inl h2
        · exact Or.inr (by simp [h2])

theorem pollsOK_insert {l : List (String × PollutantMeasurement)} {p : String}
    {m : PollutantMeasurement} (h : pollsOK l) (hp : p ∈ target_pollutants)
    (hm : m.avg.isSome = true) : pollsOK (dictInsert l p m) := by
  refine ⟨dictInsert_keys_nodup h.1, ?_⟩
  intro pm hpm
  rcases dictInsert_mem hpm with rfl | hpm2
  · exact ⟨hp, hm⟩
  · exact h.2 pm hpm2

theorem stateOK_update {st : AggState} {k : String × String × String} {p : String}
    {m : PollutantMeasurement} (h : stateOK st) (hp : p ∈ target_pollutants)
    (hm : m.avg.isSome = true) : stateOK (stUpdatePoll st k p m) := by
  intro e he
  unfold stUpdatePoll at he
  rcases List.mem_map.mp he with ⟨a, ha, rfl⟩
  by_cases hk : a.1 = k
  · simpa [hk] using pollsOK_insert (h a ha) hp hm
  · simpa [hk] using h a ha

/-- Every step of the storing phase either leaves the state unchanged
or overwrites one pollutant entry that passed the allow-list and the
avg guard. -/
theorem storePhase_cases (st : AggState) (r : FlatRecord) :
    storePhase st r = st ∨
    ∃ mn mx a, normalize_pollutant_name r.pollutant_id ∈ target_pollutants ∧
      tryParseMeasurement r = some (mn, mx, some a) ∧
      storePhase st r = stUpdatePoll st (stationKeyOf r)
        (normalize_pollutant_name r.pollutant_id) ⟨mn, mx, some a, recordUnit r⟩ := by
  by_cases ht : normalize_pollutant_name r.pollutant_id ∈ target_pollutants
  · cases hp : tryParseMeasurement r with
    | none => exact Or.inl (storePhase_drop (Or.inr hp))
    | some t =>
      obtain ⟨mn, mx, av⟩ := t
      cases av with
      | none =>
        refine Or.inl ?_
        unfold storePhase
        rw [if_pos ht, hp]
        rfl
      | some a => exact Or.inr ⟨mn, mx, a, ht, rfl, storePhase_store ht hp⟩
  · exact Or.inl (storePhase_drop (Or.inl ht))

/-- A pollutant store changes no key and no base field. -/
theorem stUpdatePoll_base (st : AggState) (k : String × String × String) (p : String)
    (m : PollutantMeasurement) :
    (stUpdatePoll st k p m).map (fun e => (e.1, baseFields e.2)) =
      st.map (fun e => (e.1, baseFields e.2)) := by
  unfold stUpdatePoll
  rw [List.map_map]
  apply List.map_congr_left
  intro a ha
  by_cases hk : a.1 = k
  · simp [hk, baseFields]
  · simp [hk]

/-- The storing phase changes no key and no base field. -/
theorem storePhase_base (st : AggState) (r : FlatRecord) :
    (storePhase st r).map (fun e => (e.1, baseFields e.2)) =
      st.map (fun e => (e.1, baseFields e.2)) := by
  rcases storePhase_cases st r with he | ⟨mn, mx, a, -, -, he⟩
  · rw [he]
  · rw [he, stUpdatePoll_base]

theorem storePhase_stateOK {st : AggState} {r : FlatRecord} (h : stateOK st) :
    stateOK (storePhase st r) := by
  rcases storePhase_cases st r with he | ⟨mn, mx, a, ht, hp, he⟩
  · rw [he]; exact h
  · rw [he]; exact stateOK_update h ht rfl

theorem aggStep_stateOK {st st1 : AggState} {r : FlatRecord}
    (h : stateOK st) (hs : aggStep st r = .ok st1) : stateOK st1 := by
  by_cases hskip : r.pollutant_id = "" ∨ r.pollutant_avg = ""
  · rw [aggStep_skip hskip] at hs
    injection hs with h2; subst h2; exact h
  · cases ha : st.any (fun e => e.1 = stationKeyOf r) with
    | true =>
      rw [aggStep_seen hskip ha] at hs
      injection hs with h2; subst h2
      exact storePhase_stateOK h
    | false =>
      cases hsh : mkShell r with
      | error e => rw [aggStep_raise hskip ha hsh] at hs; cases hs
      | ok sh =>
        rw [aggStep_new hskip ha hsh] at hs
        injection hs with h2; subst h2
        refine storePhase_stateOK ?_
        intro e he
        rcases List.mem_append.mp he with he | he
        · exact h e he
        · rcases List.mem_singleton.mp he with rfl
          rw [(mkShell_spec hsh).2.2.2.2.2.2]
          exact ⟨List.nodup_nil, fun pm hpm => absurd hpm (List.not_mem_nil pm)⟩

theorem runAgg_stateOK : ∀ (rs : List FlatRecord) (st st1 : AggState),
    stateOK st → runAgg st rs = .ok st1 → stateOK st1 := by
  intro rs
  induction rs with
  | nil =>
    intro st st1 h hr
    unfold runAgg at hr
    injection hr with h2
    subst h2
    exact h
  | cons r rs ih =>
    intro st st1 h hr
    unfold runAgg at hr
    cases ha : aggStep st r with
    | error e => rw [ha] at hr; cases hr
    | ok st2 => rw [ha] at hr; exact ih st2 st1 (aggStep_stateOK h ha) hr

theorem aggregate_shape {raw : List FlatRecord} {out : List ExportRecord}
    (h : aggregate_by_station raw = .ok out) :
    ∃ st, runAgg [] raw = .ok st ∧ stateOK st ∧
      out = ((st.map Prod.snd).filter (fun si => !si.pollutants.isEmpty)).map toExport := by
  unfold aggregate_by_station at h
  cases hr : runAgg [] raw with
  | error e => rw [hr] at h; cases h
  | ok st =>
    rw [hr] at h
    injection h with h2
    subst h2
    exact ⟨st, rfl, runAgg_stateOK raw [] st (fun e he => by cases he) hr, rfl⟩

/-! ## Pagination lemmas -/

/-- The while guard: once the counter has reached the cap, the loop
does nothing. -/
theorem fetchGo_guard {α : Type} (upstream : Nat → Option (List α))
    (limit maxRecords fuel : Nat) (st : FetchState α)
    (h : maxRecords ≤ st.totalFetched) :
    fetchGo upstream limit maxRecords fuel st = st := by
  cases fuel with
  | zero => rfl
  | succ fuel =>
    unfold fetchGo
    rw [if_neg (Nat.not_lt.mpr h)]

/-- The inner loop never lets the counter pass the cap. -/
theorem ingestPage_le {α : Type} (maxRecords : Nat) (rs : List α) :
    ∀ (raw : List α) (total : Nat), total < maxRecords →
      (ingestPage maxRecords rs raw total).2 ≤ maxRecords := by
  induction rs with
  | nil =>
    intro raw total h
    simpa [ingestPage] using Nat.le_of_lt h
  | cons r rs ih =>
    intro raw total h
    unfold ingestPage
    by_cases hc : maxRecords ≤ total + 1
    · rw [if_pos hc]
      exact h
    · rw [if_neg hc]
      exact ih _ _ (Nat.lt_of_not_le hc)

/-- If the inner loop ends below the cap, it ingested the whole page. -/
theorem ingestPage_all {α : Type} (maxRecords : Nat) (rs : List α) :
    ∀ (raw : List α) (total : Nat),
      (ingestPage maxRecords rs raw total).2 < maxRecords →
      (ingestPage maxRecords rs raw total).2 = total + rs.length := by
  induction rs with
  | nil =>
    intro raw total h
    simp [ingestPage]
  | cons r rs ih =>
    intro raw total h
    unfold ingestPage at h ⊢
    by_cases hc : maxRecords ≤ total + 1
    · rw [if_pos hc] at h ⊢
      omega
    · rw [if_neg hc] at h ⊢
      rw [ih _ _ h]
      simp
      omega

/-- Bound on the rows received from upstream: starting from a state
whose wire count equals the counter and whose counter is below
cap plus page limit, the loop never receives rows beyond that bound,
provided every upstream page respects the request limit. -/
theorem fetchGo_wire_lt {α : Type} (upstream : Nat → Option (List α))
    (limit maxRecords : Nat)
    (hpages : ∀ n rs, upstream n = some rs → rs.length ≤ limit) :
    ∀ (fuel : Nat) (st : FetchState α),
      st.wireRecords = st.totalFetched →
      st.totalFetched < maxRecords + limit →
      (fetchGo upstream limit maxRecords fuel st).wireRecords < maxRecords + limit := by
  intro fuel
  induction fuel with
  | zero =>
    intro st h1 h2
    unfold fetchGo
    omega
  | succ fuel ih =>
    intro st h1 h2
    unfold fetchGo
    by_cases hlt : st.totalFetched < maxRecords
    · rw [if_pos hlt]
      split
      · omega
      · rename_i records heq
        split
        · omega
        · rename_i hemp
          have hlen : records.length ≤ limit := hpages _ _ heq
          dsimp only
          split
          · dsimp only
            omega
          · rename_i hlong
            by_cases hcap :
                (ingestPage maxRecords records st.raw_data st.totalFetched).2 < maxRecords
            · have hall := ingestPage_all maxRecords records st.raw_data st.totalFetched hcap
              exact ih _ (by dsimp only; omega) (by dsimp only; omega)
            · rw [fetchGo_guard _ _ _ _ _ (Nat.le_of_not_lt hcap)]
              dsimp only
              omega
    · rw [if_neg hlt]
      omega

/-! ## Claim theorems -/

/-- C2: the pagination loop, fed a cap of 3 against an upstream
returning pages of 2 records (page size equal to the request limit),
stops after receiving exactly 4 raw rows from upstream (retaining 3,
the cap, in `raw_data`); in general the loop performs no further fetch
once the ingested count has reached the cap, and the total number of
rows received from upstream never exceeds the cap by more than one page
size minus one. -/
theorem cpcb_C2_pagination_bound :
    fetch_all_data (fun _ => some [(), ()]) 2 3 = ⟨[(), (), ()], 3, 4, 4⟩ ∧
    (∀ (α : Type) (upstream : Nat → Option (List α)) (limit maxRecords fuel : Nat)
        (st : FetchState α), maxRecords ≤ st.totalFetched →
        fetchGo upstream limit maxRecords fuel st = st) ∧
    (∀ (α : Type) (upstream : Nat → Option (List α)) (limit maxRecords : Nat),
        1 ≤ maxRecords →
        (∀ n rs, upstream n = some rs → rs.length ≤ limit) →
        (fetch_all_data upstream limit maxRecords).wireRecords + 1 ≤
          maxRecords + limit) := by
  refine ⟨rfl, fun α u l m f st h => fetchGo_guard u l m f st h, ?_⟩
  intro α upstream limit maxRecords hm hpages
  have hb := fetchGo_wire_lt upstream limit maxRecords hpages (maxRecords + 1)
    ⟨[], 0, 0, 0⟩ rfl (by show 0 < maxRecords + limit; omega)
  unfold fetch_all_data
  omega

/-- C2 witness: the guard and the bound at the concrete scenario of the
claim (cap 3, pages of size 2, limit 2). -/
theorem cpcb_C2_witness :
    fetchGo (fun _ => some [(), ()]) 2 3 5 ⟨[(), (), ()], 3, 4, 4⟩ =
      ⟨[(), (), ()], 3, 4, 4⟩ ∧
    (fetch_all_data (fun _ => some [(), ()]) 2 3).wireRecords + 1 ≤ 3 + 2 :=
  ⟨cpcb_C2_pagination_bound.2.1 Unit (fun _ => some [(), ()]) 2 3 5
     ⟨[(), (), ()], 3, 4, 4⟩ (by decide),
   cpcb_C2_pagination_bound.2.2 Unit (fun _ => some [(), ()]) 2 3 (by decide)
     (fun n rs h => by
       injection h with h2
       rw [← h2]
       decide)⟩

/-- C3: for every input sequence of FlatRecords, every ExportRecord
produced by `aggregate_by_station` has `total_pollutants_monitored`
equal to the number of distinct canonical pollutant keys stored for
that station (the keys are pairwise distinct, so the count of stored
entries is the count of distinct keys), and every stored measurement
has a non-null `avg` value. -/
theorem cpcb_C3_total_pollutants (raw_data : List FlatRecord) (out : List ExportRecord)
    (h : aggregate_by_station raw_data = .ok out) :
    ∀ er ∈ out,
      er.total_pollutants_monitored = er.pollutants.length ∧
      (er.pollutants.map Prod.fst).Nodup ∧
      ∀ pm ∈ er.pollutants, pm.2.avg.isSome = true := by
  obtain ⟨st, -, hok, rfl⟩ := aggregate_shape h
  intro er her
  rcases List.mem_map.mp her with ⟨si, hsi, rfl⟩
  rcases List.mem_filter.mp hsi with ⟨hsi2, -⟩
  rcases List.mem_map.mp hsi2 with ⟨e, he, rfl⟩
  have hOK := hok e he
  exact ⟨rfl, hOK.1, fun pm hpm => (hOK.2 pm hpm).2⟩

/-- C3 witness: the theorem applied to the concrete input `[recPM]`. -/
theorem cpcb_C3_witness :
    aggregate_by_station [recPM] = .ok [expPM] ∧
    (expPM.total_pollutants_monitored = expPM.pollutants.length ∧
     (expPM.pollutants.map Prod.fst).Nodup ∧
     ∀ pm ∈ expPM.pollutants, pm.2.avg.isSome = true) :=
  ⟨rfl, cpcb_C3_total_pollutants [recPM] [expPM] rfl expPM (List.mem_singleton.mpr rfl)⟩

/-- C5: for every input sequence, every pollutant column group of every
ExportRecord is named `p ++ suffix` for a pollutant key `p` inside the
fixed allow-list; no column group for a key outside
{pm25, pm10, o3, no2, so2, co, nh3} ever appears. -/
theorem cpcb_C5_allowlist (raw_data : List FlatRecord) (out : List ExportRecord)
    (h : aggregate_by_station raw_data = .ok out) :
    ∀ er ∈ out, ∀ col ∈ exportColumns er,
      ∃ p ∈ target_pollutants, ∃ suffix ∈ (["_min", "_max", "_avg", "_unit"] : List String),
        col.1 = p ++ suffix := by
  obtain ⟨st, -, hok, rfl⟩ := aggregate_shape h
  intro er her col hcol
  rcases List.mem_map.mp her with ⟨si, hsi, rfl⟩
  rcases List.mem_filter.mp hsi with ⟨hsi2, -⟩
  rcases List.mem_map.mp hsi2 with ⟨e, he, rfl⟩
  have hOK := hok e he
  unfold exportColumns at hcol
  rcases List.mem_flatMap.mp hcol with ⟨pm, hpm, hc⟩
  have hpT := (hOK.2 pm hpm).1
  unfold measurementCols at hc
  simp only [List.mem_cons, List.not_mem_nil, or_false] at hc
  rcases hc with hc | hc | hc | hc
  · exact ⟨pm.1, hpT, "_min", by simp, by rw [hc]⟩
  · exact ⟨pm.1, hpT, "_max", by simp, by rw [hc]⟩
  · exact ⟨pm.1, hpT, "_avg", by simp, by rw [hc]⟩
  · exact ⟨pm.1, hpT, "_unit", by simp, by rw [hc]⟩

/-- C5 witness: the theorem applied to the concrete input `[recPM]` and
the concrete column `pm25_avg`. -/
theorem cpcb_C5_witness :
    aggregate_by_station [recPM] = .ok [expPM] ∧
    ("pm25_avg", CellValue.num (mkRat 55 1)) ∈ exportColumns expPM ∧
    (∃ p ∈ target_pollutants, ∃ suffix ∈ (["_min", "_max", "_avg", "_unit"] : List String),
      ("pm25_avg", CellValue.num (mkRat 55 1)).1 = p ++ suffix) :=
  ⟨rfl, by decide,
   cpcb_C5_allowlist [recPM] [expPM] rfl expPM (List.mem_singleton.mpr rfl) _ (by decide)⟩

/-- C6: a station whose records yield zero stored pollutant
measurements never appears in the aggregated output (every emitted
ExportRecord has a non-empty pollutant mapping), and the concrete
single Benzene record for an unseen station produces no output at
all. -/
theorem cpcb_C6_zero_measurements_excluded :
    (∀ (raw_data : List FlatRecord) (out : List ExportRecord),
        aggregate_by_station raw_data = .ok out → ∀ er ∈ out, er.pollutants ≠ []) ∧
    aggregate_by_station [benzeneRecord] = .ok [] := by
  constructor
  · intro raw out h er her
    obtain ⟨st, -, -, rfl⟩ := aggregate_shape h
    rcases List.mem_map.mp her with ⟨si, hsi, rfl⟩
    rcases List.mem_filter.mp hsi with ⟨-, hne⟩
    simpa [toExport, List.isEmpty_iff] using hne
  · rfl

/-- C6 witness: the general part applied to the concrete input
`[recPM]`. -/
theorem cpcb_C6_witness :
    aggregate_by_station [recPM] = .ok [expPM] ∧ expPM.pollutants ≠ [] :=
  ⟨rfl, cpcb_C6_zero_measurements_excluded.1 [recPM] [expPM] rfl expPM
     (List.mem_singleton.mpr rfl)⟩

/-- C7: `normalize_pollutant_name` is total (a Lean function, never
raising) and returns, for each of the sixteen listed synonyms, its
mapped canonical key, and for every string outside the synonym table
the lowercased input with hyphens and spaces replaced by
underscores. -/
theorem cpcb_C7_normalizer :
    (normalize_pollutant_name "PM2.5" = "pm25" ∧ normalize_pollutant_name "PM10" = "pm10" ∧
     normalize_pollutant_name "O3" = "o3" ∧ normalize_pollutant_name "Ozone" = "o3" ∧
     normalize_pollutant_name "NO2" = "no2" ∧ normalize_pollutant_name "SO2" = "so2" ∧
     normalize_pollutant_name "CO" = "co" ∧ normalize_pollutant_name "NH3" = "nh3" ∧
     normalize_pollutant_name "Ammonia" = "nh3" ∧ normalize_pollutant_name "Pb" = "pb" ∧
     normalize_pollutant_name "Lead" = "pb" ∧
     normalize_pollutant_name "Benzene" = "benzene" ∧
     normalize_pollutant_name "Toluene" = "toluene" ∧
     normalize_pollutant_name "Xylene" = "xylene" ∧
     normalize_pollutant_name "MP-Xylene" = "mp_xylene" ∧
     normalize_pollutant_name "Eth-Benzene" = "eth_benzene") ∧
    ∀ s, pollutant_map.lookup s = none →
      normalize_pollutant_name s = pyReplace (pyReplace (pyLower s) '-' '_') ' ' '_' := by
  constructor
  · exact ⟨rfl, rfl, rfl, rfl, rfl, rfl, rfl, rfl, rfl, rfl, rfl, rfl, rfl, rfl, rfl, rfl⟩
  · intro s h
    unfold normalize_pollutant_name
    rw [h]

/-- C7 witness: the fallback branch applied to a concrete unmapped
label. -/
theorem cpcb_C7_witness :
    pollutant_map.lookup "Mercury Vapor-X" = none ∧
    normalize_pollutant_name "Mercury Vapor-X" = "mercury_vapor_x" :=
  ⟨by decide,
   (cpcb_C7_normalizer.2 "Mercury Vapor-X" (by decide)).trans (by decide)⟩

/-- C1 counterexample: on an input containing a record with the
non-empty, non-numeric latitude string "abc", aggregation does not
complete; the conversion error from shell creation propagates. This
refutes the claim that the operation never raises. -/
theorem cpcb_C1_counterexample :
    aggregate_by_station [badLatRecord] =
      .error "could not convert string to float: abc" := rfl

/-- C1 (amended): when a record passing the skip test meets an unseen
StationKey, the shell is created with latitude and longitude parsed as
floats where an empty string yields null; but a non-empty string that
fails to parse raises an uncaught conversion error, so aggregation
does not complete on such inputs. -/
theorem cpcb_C1_shell_parsing (st : AggState) (r : FlatRecord)
    (hskip : ¬(r.pollutant_id = "" ∨ r.pollutant_avg = ""))
    (hnew : st.any (fun e => e.1 = stationKeyOf r) = false) :
    ((r.latitude = "" ∨ (pyFloat r.latitude).isSome = true) →
     (r.longitude = "" ∨ (pyFloat r.longitude).isSome = true) →
     ∃ sh, mkShell r = .ok sh ∧
       aggStep st r = .ok (storePhase (st ++ [(stationKeyOf r, sh)]) r) ∧
       sh.latitude = (if r.latitude = "" then none else pyFloat r.latitude) ∧
       sh.longitude = (if r.longitude = "" then none else pyFloat r.longitude)) ∧
    (((r.latitude ≠ "" ∧ pyFloat r.latitude = none) ∨
      ((r.latitude = "" ∨ (pyFloat r.latitude).isSome = true) ∧
       r.longitude ≠ "" ∧ pyFloat r.longitude = none)) →
     ∃ e, aggStep st r = .error e) := by
  constructor
  · intro hlat hlon
    exact ⟨_, mkShell_ok_of hlat hlon,
      aggStep_new hskip hnew (mkShell_ok_of hlat hlon), rfl, rfl⟩
  · intro h
    obtain ⟨e, he⟩ := mkShell_error_of h
    exact ⟨e, aggStep_raise hskip hnew he⟩

/-- C1 witness: the success branch of the amended theorem at the
concrete record `recPM` and the empty state. -/
theorem cpcb_C1_witness :
    ∃ sh, mkShell recPM = .ok sh ∧
      aggStep [] recPM = .ok (storePhase ([] ++ [(stationKeyOf recPM, sh)]) recPM) ∧
      sh.latitude = (if recPM.latitude = "" then none else pyFloat recPM.latitude) ∧
      sh.longitude = (if recPM.longitude = "" then none else pyFloat recPM.longitude) :=
  (cpcb_C1_shell_parsing [] recPM (by decide) rfl).1
    (Or.inr (by decide)) (Or.inr (by decide))

/-- C8: numeric-parse atomicity. If any of min, max, avg is non-empty
and unparseable, the whole observation is discarded: the step raises no
error, no pollutant entry is stored anywhere, an existing state is
returned unchanged, and at most a pollutant-free shell is appended for
an unseen station. Empty strings for min and max are tolerated as null
by the parse of the try block. -/
theorem cpcb_C8_parse_atomicity (st : AggState) (r : FlatRecord)
    (hskip : ¬(r.pollutant_id = "" ∨ r.pollutant_avg = ""))
    (hfail : (r.pollutant_min ≠ "" ∧ pyFloat r.pollutant_min = none) ∨
             (r.pollutant_max ≠ "" ∧ pyFloat r.pollutant_max = none) ∨
             (r.pollutant_avg ≠ "" ∧ pyFloat r.pollutant_avg = none)) :
    parseOptFloat "" = some none ∧
    (st.any (fun e => e.1 = stationKeyOf r) = true → aggStep st r = .ok st) ∧
    (st.any (fun e => e.1 = stationKeyOf r) = false →
     ∀ sh, mkShell r = .ok sh →
       aggStep st r = .ok (st ++ [(stationKeyOf r, sh)]) ∧ sh.pollutants = []) := by
  have hdrop : ∀ st2 : AggState, storePhase st2 r = st2 :=
    fun st2 => storePhase_drop (Or.inr (tryParse_none_of_fail hfail))
  refine ⟨rfl, ?_, ?_⟩
  · intro ha
    rw [aggStep_seen hskip ha, hdrop]
  · intro hnew sh hsh
    rw [aggStep_new hskip hnew hsh, hdrop]
    exact ⟨rfl, (mkShell_spec hsh).2.2.2.2.2.2⟩

/-- C8 witness: the theorem at the concrete record with unparseable
max, applied to the empty state. -/
theorem cpcb_C8_witness :
    (recBadMax.pollutant_max ≠ "" ∧ pyFloat recBadMax.pollutant_max = none) ∧
    aggStep [] recBadMax = .ok ([] ++ [(stationKeyOf recBadMax, shellAlpha)]) ∧
    shellAlpha.pollutants = [] :=
  ⟨⟨by decide, by decide⟩,
   (cpcb_C8_parse_atomicity [] recBadMax (by decide)
      (Or.inr (Or.inl ⟨by decide, by decide⟩))).2.2 rfl shellAlpha rfl⟩

/-- C10: station metadata is first-write-wins. A record failing the
skip test changes nothing; the first record passing the skip test for
an unseen key appends a bucket whose base fields are derived from that
record; every later record whose key is already present leaves the key
list and all base fields of every station unchanged (only pollutant
mappings can change). -/
theorem cpcb_C10_metadata_first_write :
    (∀ (st : AggState) (r : FlatRecord),
        (r.pollutant_id = "" ∨ r.pollutant_avg = "") → aggStep st r = .ok st) ∧
    (∀ (st : AggState) (r : FlatRecord) (sh : StationInfo),
        ¬(r.pollutant_id = "" ∨ r.pollutant_avg = "") →
        st.any (fun e => e.1 = stationKeyOf r) = false →
        mkShell r = .ok sh →
        ∃ st1, aggStep st r = .ok st1 ∧
          st1.map (fun e => (e.1, baseFields e.2)) =
            st.map (fun e => (e.1, baseFields e.2)) ++ [(stationKeyOf r, baseFields sh)] ∧
          baseFields sh = (pyStrip r.station_name, pyStrip r.city, pyStrip r.state,
            sh.latitude, sh.longitude,
            if r.last_update = "" then "" else pyStrip r.last_update)) ∧
    (∀ (st : AggState) (r : FlatRecord),
        st.any (fun e => e.1 = stationKeyOf r) = true →
        ∃ st1, aggStep st r = .ok st1 ∧
          st1.map (fun e => (e.1, baseFields e.2)) =
            st.map (fun e => (e.1, baseFields e.2))) := by
  refine ⟨fun st r h => aggStep_skip h, ?_, ?_⟩
  · intro st r sh hskip hnew hsh
    refine ⟨_, aggStep_new hskip hnew hsh, ?_, ?_⟩
    · rw [storePhase_base, List.map_append]
      rfl
    · obtain ⟨-, -, h3, h4, h5, h6, -⟩ := mkShell_spec hsh
      unfold baseFields
      rw [h3, h4, h5, h6]
  · intro st r ha
    by_cases hskip : r.pollutant_id = "" ∨ r.pollutant_avg = ""
    · exact ⟨st, aggStep_skip hskip, rfl⟩
    · exact ⟨_, aggStep_seen hskip ha, storePhase_base st r⟩

/-- C4: last-write-wins on duplicate (station, pollutant) observations.
Feeding two records with the same StationKey and the same normalized,
allow-listed pollutant key, both with parseable numeric values, yields
exactly one PollutantMeasurement for that key, equal to the parsed
min/max/avg and unit of the record appearing later in input order. -/
theorem cpcb_C4_last_write_wins (r1 r2 : FlatRecord)
    (h1 : ¬(r1.pollutant_id = "" ∨ r1.pollutant_avg = ""))
    (h2 : ¬(r2.pollutant_id = "" ∨ r2.pollutant_avg = ""))
    (hkey : stationKeyOf r2 = stationKeyOf r1)
    (hpoll : normalize_pollutant_name r2.pollutant_id =
             normalize_pollutant_name r1.pollutant_id)
    (htarget : normalize_pollutant_name r1.pollutant_id ∈ target_pollutants)
    (sh : StationInfo) (hsh : mkShell r1 = .ok sh)
    (mn1 mx1 : Option Rat) (a1 : Rat)
    (hp1 : tryParseMeasurement r1 = some (mn1, mx1, some a1))
    (mn2 mx2 : Option Rat) (a2 : Rat)
    (hp2 : tryParseMeasurement r2 = some (mn2, mx2, some a2)) :
    ∃ er, aggregate_by_station [r1, r2] = .ok [er] ∧
      er.pollutants = [(normalize_pollutant_name r1.pollutant_id,
                        ⟨mn2, mx2, some a2, recordUnit r2⟩)] ∧
      er.total_pollutants_monitored = 1 := by
  have hpolls := (mkShell_spec hsh).2.2.2.2.2.2
  have hs1 : aggStep [] r1 = .ok (storePhase ([] ++ [(stationKeyOf r1, sh)]) r1) :=
    aggStep_new h1 rfl hsh
  rw [storePhase_store htarget hp1] at hs1
  have hu1 : stUpdatePoll ([] ++ [(stationKeyOf r1, sh)]) (stationKeyOf r1)
      (normalize_pollutant_name r1.pollutant_id)
      ⟨mn1, mx1, some a1, recordUnit r1⟩ =
      [(stationKeyOf r1,
        { sh with pollutants := [(normalize_pollutant_name r1.pollutant_id,
                                  ⟨mn1, mx1, some a1, recordUnit r1⟩)] })] := by
    unfold stUpdatePoll
    simp [hpolls, dictInsert]
  rw [hu1] at hs1
  have ha2 : ([(stationKeyOf r1,
      { sh with pollutants := [(normalize_pollutant_name r1.pollutant_id,
                                ⟨mn1, mx1, some a1, recordUnit r1⟩)] })] : AggState).any
      (fun e => e.1 = stationKeyOf r2) = true := by
    simp [hkey]
  have hs2 := aggStep_seen h2 ha2
  rw [storePhase_store (show normalize_pollutant_name r2.pollutant_id ∈ target_pollutants by
        rw [hpoll]; exact htarget) hp2] at hs2
  have hu2 : stUpdatePoll [(stationKeyOf r1,
      { sh with pollutants := [(normalize_pollutant_name r1.pollutant_id,
                                ⟨mn1, mx1, some a1, recordUnit r1⟩)] })]
      (stationKeyOf r2) (normalize_pollutant_name r2.pollutant_id)
      ⟨mn2, mx2, some a2, recordUnit r2⟩ =
      [(stationKeyOf r1,
        { sh with pollutants := [(normalize_pollutant_name r1.pollutant_id,
                                  ⟨mn2, mx2, some a2, recordUnit r2⟩)] })] := by
    unfold stUpdatePoll
    simp [hkey, hpoll, dictInsert]
  rw [hu2] at hs2
  have hrun : runAgg [] [r1, r2] = .ok [(stationKeyOf r1,
      { sh with pollutants := [(normalize_pollutant_name r1.pollutant_id,
                                ⟨mn2, mx2, some a2, recordUnit r2⟩)] })] := by
    simp only [runAgg, hs1, hs2]
  refine ⟨toExport { sh with pollutants := [(normalize_pollutant_name r1.pollutant_id,
                                ⟨mn2, mx2, some a2, recordUnit r2⟩)] }, ?_, rfl, rfl⟩
  unfold aggregate_by_station
  rw [hrun]
  rfl

/-- C4 witness: the theorem at two concrete records for the same
station and pollutant, the later with different values. -/
theorem cpcb_C4_witness :
    ∃ er, aggregate_by_station [recPM, recPM2] = .ok [er] ∧
      er.pollutants = [(normalize_pollutant_name recPM.pollutant_id,
                        ⟨none, some (mkRat 80 1), some (mkRat 60 1),
                         recordUnit recPM2⟩)] ∧
      er.total_pollutants_monitored = 1 :=
  cpcb_C4_last_write_wins recPM recPM2 (by decide) (by decide) rfl rfl (by decide)
    shellAlpha rfl (some (mkRat 40 1)) (some (mkRat 70 1)) (mkRat 55 1) rfl
    none (some (mkRat 80 1)) (mkRat 60 1) rfl

/-- C9: station grouping keys on the raw untrimmed strings while the
emitted name is trimmed: two records whose station names differ only by
surrounding whitespace (same coordinate strings), each carrying a valid
allow-listed observation, produce two distinct output rows bearing the
same trimmed station name. -/
theorem cpcb_C9_whitespace_station_split (r1 r2 : FlatRecord)
    (h1 : ¬(r1.pollutant_id = "" ∨ r1.pollutant_avg = ""))
    (h2 : ¬(r2.pollutant_id = "" ∨ r2.pollutant_avg = ""))
    (hname : r1.station_name ≠ r2.station_name)
    (htrim : pyStrip r1.station_name = pyStrip r2.station_name)
    (hlat : r2.latitude = r1.latitude) (hlon : r2.longitude = r1.longitude)
    (ht1 : normalize_pollutant_name r1.pollutant_id ∈ target_pollutants)
    (ht2 : normalize_pollutant_name r2.pollutant_id ∈ target_pollutants)
    (sh1 : StationInfo) (hsh1 : mkShell r1 = .ok sh1)
    (sh2 : StationInfo) (hsh2 : mkShell r2 = .ok sh2)
    (mn1 mx1 : Option Rat) (a1 : Rat)
    (hp1 : tryParseMeasurement r1 = some (mn1, mx1, some a1))
    (mn2 mx2 : Option Rat) (a2 : Rat)
    (hp2 : tryParseMeasurement r2 = some (mn2, mx2, some a2)) :
    ∃ e1 e2, aggregate_by_station [r1, r2] = .ok [e1, e2] ∧
      e1.station_name = pyStrip r1.station_name ∧
      e2.station_name = pyStrip r2.station_name ∧
      e1.station_name = e2.station_name := by
  have hpolls1 := (mkShell_spec hsh1).2.2.2.2.2.2
  have hpolls2 := (mkShell_spec hsh2).2.2.2.2.2.2
  have hkne : ¬(stationKeyOf r1 = stationKeyOf r2) := by
    unfold stationKeyOf
    simp [hname]
  have hs1 : aggStep [] r1 = .ok (storePhase ([] ++ [(stationKeyOf r1, sh1)]) r1) :=
    aggStep_new h1 rfl hsh1
  rw [storePhase_store ht1 hp1] at hs1
  have hu1 : stUpdatePoll ([] ++ [(stationKeyOf r1, sh1)]) (stationKeyOf r1)
      (normalize_pollutant_name r1.pollutant_id)
      ⟨mn1, mx1, some a1, recordUnit r1⟩ =
      [(stationKeyOf r1,
        { sh1 with pollutants := [(normalize_pollutant_name r1.pollutant_id,
                                   ⟨mn1, mx1, some a1, recordUnit r1⟩)] })] := by
    unfold stUpdatePoll
    simp [hpolls1, dictInsert]
  rw [hu1] at hs1
  have ha2 : ([(stationKeyOf r1,
      { sh1 with pollutants := [(normalize_pollutant_name r1.pollutant_id,
                                 ⟨mn1, mx1, some a1, recordUnit r1⟩)] })] : AggState).any
      (fun e => e.1 = stationKeyOf r2) = false := by
    simp [hkne]
  have hs2 : aggStep [(stationKeyOf r1,
      { sh1 with pollutants := [(normalize_pollutant_name r1.pollutant_id,
                                 ⟨mn1, mx1, some a1, recordUnit r1⟩)] })] r2 =
      .ok (storePhase ([(stationKeyOf r1,
        { sh1 with pollutants := [(normalize_pollutant_name r1.pollutant_id,
                                   ⟨mn1, mx1, some a1, recordUnit r1⟩)] })] ++
        [(stationKeyOf r2, sh2)]) r2) :=
    aggStep_new h2 ha2 hsh2
  rw [storePhase_store ht2 hp2] at hs2
  have hu2 : stUpdatePoll ([(stationKeyOf r1,
      { sh1 with pollutants := [(normalize_pollutant_name r1.pollutant_id,
                                 ⟨mn1, mx1, some a1, recordUnit r1⟩)] })] ++
      [(stationKeyOf r2, sh2)]) (stationKeyOf r2)
      (normalize_pollutant_name r2.pollutant_id)
      ⟨mn2, mx2, some a2, recordUnit r2⟩ =
      [(stationKeyOf r1,
        { sh1 with pollutants := [(normalize_pollutant_name r1.pollutant_id,
                                   ⟨mn1, mx1, some a1, recordUnit r1⟩)] }),
       (stationKeyOf r2,
        { sh2 with pollutants := [(normalize_pollutant_name r2.pollutant_id,
                                   ⟨mn2, mx2, some a2, recordUnit r2⟩)] })] := by
    unfold stUpdatePoll
    simp [hkne, hpolls2, dictInsert]
  rw [hu2] at hs2
  have hrun : runAgg [] [r1, r2] = .ok
      [(stationKeyOf r1,
        { sh1 with pollutants := [(normalize_pollutant_name r1.pollutant_id,
                                   ⟨mn1, mx1, some a1, recordUnit r1⟩)] }),
       (stationKeyOf r2,
        { sh2 with pollutants := [(normalize_pollutant_name r2.pollutant_id,
                                   ⟨mn2, mx2, some a2, recordUnit r2⟩)] })] := by
    simp only [runAgg, hs1, hs2]
  refine ⟨toExport { sh1 with pollutants := [(normalize_pollutant_name r1.pollutant_id,
                       ⟨mn1, mx1, some a1, recordUnit r1⟩)] },
          toExport { sh2 with pollutants := [(normalize_pollutant_name r2.pollutant_id,
                       ⟨mn2, mx2, some a2, recordUnit r2⟩)] }, ?_, ?_, ?_, ?_⟩
  · unfold aggregate_by_station
    rw [hrun]
    rfl
  · exact (mkShell_spec hsh1).2.2.1
  · exact (mkShell_spec hsh2).2.2.1
  · rw [(mkShell_spec hsh1).2.2.1, (mkShell_spec hsh2).2.2.1] at *
    exact htrim

/-- C9 witness: the theorem at `recPMspace` (name with a leading
space) and `recPM`. -/
theorem cpcb_C9_witness :
    ∃ e1 e2, aggregate_by_station [recPMspace, recPM] = .ok [e1, e2] ∧
      e1.station_name = pyStrip recPMspace.station_name ∧
      e2.station_name = pyStrip recPM.station_name ∧
      e1.station_name = e2.station_name :=
  cpcb_C9_whitespace_station_split recPMspace recPM (by decide) (by decide) (by decide)
    (by decide) rfl rfl (by decide) (by decide)
    shellAlpha rfl shellAlpha rfl
    (some (mkRat 40 1)) (some (mkRat 70 1)) (mkRat 55 1) rfl
    (some (mkRat 40 1)) (some (mkRat 70 1)) (mkRat 55 1) rfl

/-- C10 witness: the frame part applied to a concrete state already
containing the station of `recPM`. -/
theorem cpcb_C10_witness :
    ∃ st1, aggStep [(stationKeyOf recPM, shellAlpha)] recPM = .ok st1 ∧
      st1.map (fun e => (e.1, baseFields e.2)) =
        [(stationKeyOf recPM, shellAlpha)].map (fun e => (e.1, baseFields e.2)) :=
  cpcb_C10_metadata_first_write.2.2 [(stationKeyOf recPM, shellAlpha)] recPM (by decide)

end Cpcb
